import Mathlib

/-!
# moranGo-pay: the authentication use case

A shallow embedding of `internal/usecase/auth.go` (package `usecase`).

* Go strings are Lean `String`s, that is, strings that hold valid UTF-8 (what `json.Unmarshal`
  hands to the use case); `len(s)` is the UTF-8 byte length `String.utf8ByteSize`.
* A Go `error` built by `errors.New(text)` is the record `GoError` holding its text; two errors
  are compared by their text, the only thing an `errors.New` value carries.
* A `*User` is an `Option User` (`none` is the nil pointer). Reading a field through a nil
  pointer ends the run with `Completion.nilDereference`.
* The two collaborators are interfaces in the source. Here each one is a record of functions
  over a state type of its own, so every implementation (stateful or not) is an instance.
* `World` threads the collaborators' states and the clock through a run, and logs every
  collaborator call in `calls` (oldest first). The log is the only addition to the source: it
  makes "calls" / "never calls" statements expressible.
-/

namespace usecase

/-- The text-carrying value built by `errors.New`. -/
structure GoError where
  msg : String
  deriving DecidableEq, Repr

/-- Instants as read from the clock; `0` is the zero value of `time.Time`. -/
abbrev Time := Nat

/-- The invocation context, reduced to whether it has been cancelled. -/
structure Context where
  cancelled : Bool
  deriving DecidableEq, Repr

structure User where
  ID : String
  Email : String
  Name : String
  CreatedAt : Time
  UpdatedAt : Time
  deriving DecidableEq, Repr

structure LoginCredentials where
  Email : String
  Password : String
  deriving DecidableEq, Repr

structure LoginResult where
  User : User
  AccessToken : String
  RefreshToken : String
  TokenType : String
  deriving DecidableEq, Repr

/-- The interface `UserRepository`, over the store state `σ`. Each method returns its Go result
tuple and the next store state. -/
structure UserRepository (σ : Type) where
  CreateUser : Context → User → σ → Option GoError × σ
  GetUserByEmail : Context → String → σ → (Option User × Option GoError) × σ

/-- The interface `TokenService`, over the issuer state `τ`. -/
structure TokenService (τ : Type) where
  GenerateToken : String → τ → (String × Option GoError) × τ
  ValidateToken : String → τ → (Bool × Option GoError) × τ

structure AuthUseCase (σ τ : Type) where
  userRepo : UserRepository σ
  tokenService : TokenService τ

def NewAuthUseCase {σ τ : Type} (userRepo : UserRepository σ) (tokenService : TokenService τ) :
    AuthUseCase σ τ :=
  ⟨userRepo, tokenService⟩

/-- One collaborator call, with the arguments it was made with. -/
inductive Call where
  | CreateUser (ctx : Context) (user : User)
  | GetUserByEmail (ctx : Context) (email : String)
  | GenerateToken (userID : String)
  | ValidateToken (token : String)
  deriving DecidableEq, Repr

/-- Everything outside the use case: the store state, the issuer state, the clock (`now n` is
the value of the `n`-th `time.Now()` reading, `ticks` the number of readings made so far) and the
log of collaborator calls. -/
structure World (σ τ : Type) where
  repo : σ
  tokens : τ
  now : Nat → Time
  ticks : Nat
  calls : List Call

/-- How a run ends: by returning a value, or by a nil-pointer dereference panic. -/
inductive Completion (α : Type) where
  | returned (value : α)
  | nilDereference
  deriving DecidableEq, Repr

end usecase

namespace errors

/-- The Go function `errors.New`. -/
def New (text : String) : usecase.GoError := ⟨text⟩

end errors

namespace usecase

variable {σ τ : Type}

/-- The call `u.userRepo.GetUserByEmail(ctx, email)`. -/
def World.callGetUserByEmail (w : World σ τ) (u : AuthUseCase σ τ) (ctx : Context)
    (email : String) : (Option User × Option GoError) × World σ τ :=
  let r := u.userRepo.GetUserByEmail ctx email w.repo
  (r.1, { w with repo := r.2, calls := w.calls ++ [Call.GetUserByEmail ctx email] })

/-- The call `u.userRepo.CreateUser(ctx, user)`. -/
def World.callCreateUser (w : World σ τ) (u : AuthUseCase σ τ) (ctx : Context)
    (user : User) : Option GoError × World σ τ :=
  let r := u.userRepo.CreateUser ctx user w.repo
  (r.1, { w with repo := r.2, calls := w.calls ++ [Call.CreateUser ctx user] })

/-- The call `u.tokenService.GenerateToken(userID)`. -/
def World.callGenerateToken (w : World σ τ) (u : AuthUseCase σ τ)
    (userID : String) : (String × Option GoError) × World σ τ :=
  let r := u.tokenService.GenerateToken userID w.tokens
  (r.1, { w with tokens := r.2, calls := w.calls ++ [Call.GenerateToken userID] })

/-- The call `time.Now()`. -/
def World.timeNow (w : World σ τ) : Time × World σ τ :=
  (w.now w.ticks, { w with ticks := w.ticks + 1 })

def AuthUseCase.validateLoginCredentials (_u : AuthUseCase σ τ)
    (credentials : LoginCredentials) : Option GoError :=
  if credentials.Email = "" ∨ credentials.Password = "" then
    some (errors.New "email and password are required")
  else
    none

def AuthUseCase.validateUserData (_u : AuthUseCase σ τ) (user : User)
    (password : String) : Option GoError :=
  if user.Email = "" ∨ user.Name = "" then
    some (errors.New "email and name are required")
  else if password.utf8ByteSize < 8 then
    some (errors.New "password must be at least 8 characters long")
  else
    none

def AuthUseCase.validadePassword (_u : AuthUseCase σ τ) (_password : String)
    (_user : Option User) : Bool :=
  true

/-- The body of `Login`, with the password check it calls taken as the argument `verify`.
`Login` below is this body at the source's own check, `validadePassword`. -/
def AuthUseCase.LoginWith (verify : String → Option User → Bool) (u : AuthUseCase σ τ)
    (ctx : Context) (credentials : LoginCredentials) (w : World σ τ) :
    Completion (Option LoginResult × Option GoError) × World σ τ :=
  match u.validateLoginCredentials credentials with
  | some err => (.returned (none, some err), w)
  | none =>
    let r := w.callGetUserByEmail u ctx credentials.Email
    match r.1.2 with
    | some _ => (.returned (none, some (errors.New "invalid credentials")), r.2)
    | none =>
      if !verify credentials.Password r.1.1 then
        (.returned (none, some (errors.New "invalid credentials")), r.2)
      else
        match r.1.1 with
        | none => (.nilDereference, r.2)
        | some user =>
          let t := r.2.callGenerateToken u user.ID
          match t.1.2 with
          | some _ => (.returned (none, some (errors.New "failed to generate access token")), t.2)
          | none =>
            (.returned (some ⟨user, t.1.1, "refresh_token_placeholder", "Bearer"⟩, none), t.2)

/-- The method `AuthUseCase.Login`. -/
def AuthUseCase.Login (u : AuthUseCase σ τ) (ctx : Context) (credentials : LoginCredentials)
    (w : World σ τ) : Completion (Option LoginResult × Option GoError) × World σ τ :=
  AuthUseCase.LoginWith u.validadePassword u ctx credentials w

/-- The method `AuthUseCase.Register`. It reads no field through a pointer, so it always
returns. -/
def AuthUseCase.Register (u : AuthUseCase σ τ) (ctx : Context) (user : User)
    (password : String) (w : World σ τ) : Option GoError × World σ τ :=
  match u.validateUserData user password with
  | some err => (some err, w)
  | none =>
    let r := w.callGetUserByEmail u ctx user.Email
    match r.1.1 with
    | some _ => (some (errors.New "user already exists"), r.2)
    | none =>
      let c := r.2.timeNow
      let user1 : User := { user with CreatedAt := c.1 }
      let m := c.2.timeNow
      let user2 : User := { user1 with UpdatedAt := m.1 }
      let e := m.2.callCreateUser u ctx user2
      match e.1 with
      | some _ => (some (errors.New "failed to create user"), e.2)
      | none => (none, e.2)

/-! ## The error kinds of the specification, as the errors the code builds -/

/-- The kind `InvalidInput`, as built by `validateLoginCredentials`. -/
def InvalidInputLogin : GoError := errors.New "email and password are required"

/-- The kind `InvalidInput`, as built by `validateUserData` for an empty email or name. -/
def InvalidInputUser : GoError := errors.New "email and name are required"

/-- The kind `InvalidInput`, as built by `validateUserData` for a short password. -/
def InvalidInputPassword : GoError := errors.New "password must be at least 8 characters long"

def InvalidCredentials : GoError := errors.New "invalid credentials"

def TokenIssuanceFailed : GoError := errors.New "failed to generate access token"

def UserAlreadyExists : GoError := errors.New "user already exists"

def PersistenceFailed : GoError := errors.New "failed to create user"

/-! ## Test doubles -/

/-- A store that answers every lookup with `lookup` and every creation with `create`. -/
def stubRepo (lookup : Option User × Option GoError) (create : Option GoError) :
    UserRepository Unit where
  CreateUser := fun _ _ s => (create, s)
  GetUserByEmail := fun _ _ s => (lookup, s)

/-- An issuer that answers every request with `answer`. -/
def stubTokens (answer : String × Option GoError) : TokenService Unit where
  GenerateToken := fun _ s => (answer, s)
  ValidateToken := fun _ s => ((true, none), s)

/-- An in-memory store: the list of the users created so far. A lookup that finds nothing
reports an error; a creation with an email already present is refused. -/
def memRepo : UserRepository (List User) where
  CreateUser := fun _ user s =>
    if s.any (fun x => x.Email = user.Email) then
      (some (errors.New "duplicate email"), s)
    else
      (none, s ++ [user])
  GetUserByEmail := fun _ email s =>
    match s.find? (fun x => x.Email = email) with
    | some x => ((some x, none), s)
    | none => ((none, some (errors.New "user not found")), s)

/-- A world with nothing logged, whose clock reads `clock n` at its `n`-th reading. -/
def World.start (repo : σ) (tokens : τ) (clock : Nat → Time) : World σ τ :=
  ⟨repo, tokens, clock, 0, []⟩

def background : Context := ⟨false⟩

def alice : User := ⟨"u-1", "a@x.com", "A", 5, 5⟩

/-- The use case over the in-memory store and an issuer that always issues `"tok-1"`. -/
def memCase : AuthUseCase (List User) Unit :=
  NewAuthUseCase memRepo (stubTokens ("tok-1", none))

/-- A world whose store holds `alice` and whose clock reads `1, 2, 3, ...`. -/
def aliceWorld : World (List User) Unit := World.start [alice] () (fun n => n + 1)

/-- A world whose store is empty and whose clock reads `1, 2, 3, ...`. -/
def emptyWorld : World (List User) Unit := World.start [] () (fun n => n + 1)

/-- The use case over a store that answers a lookup with a nil user and a nil error. -/
def nilCase : AuthUseCase Unit Unit :=
  NewAuthUseCase (stubRepo (none, none) none) (stubTokens ("tok-1", none))

/-- A store whose lookups read a stale replica and find nobody, while `CreateUser` enforces the
uniqueness of emails as `memRepo` does. -/
def staleRepo : UserRepository (List User) where
  CreateUser := memRepo.CreateUser
  GetUserByEmail := fun _ _ s => ((none, some (errors.New "user not found")), s)

/-- The use case over `staleRepo`. -/
def staleCase : AuthUseCase (List User) Unit :=
  NewAuthUseCase staleRepo (stubTokens ("tok-1", none))

/-- The use case over the in-memory store and an issuer that always fails. -/
def noTokenCase : AuthUseCase (List User) Unit :=
  NewAuthUseCase memRepo (stubTokens ("", some (errors.New "signing key unavailable")))

/-- The use case over a store whose lookups fail with "connection refused". -/
def downCase : AuthUseCase Unit Unit :=
  NewAuthUseCase (stubRepo (none, some (errors.New "connection refused")) none)
    (stubTokens ("tok-1", none))

/-- A world for the stub collaborators, whose clock reads `1, 2, 3, ...`. -/
def stubWorld : World Unit Unit := World.start () () (fun n => n + 1)

/-- An issuer whose state counts the tokens issued and whose tokens carry that count, so that
no two of them are equal. It never fails. -/
def counterTokens : TokenService Nat where
  GenerateToken := fun userID n => (("tok-" ++ userID ++ "-" ++ toString n, none), n + 1)
  ValidateToken := fun _ n => ((true, none), n)

/-- The use case over a store that answers every lookup with `alice`, and `counterTokens`. -/
def repeatCase : AuthUseCase Unit Nat :=
  NewAuthUseCase (stubRepo (some alice, none) none) counterTokens

/-- A world for `repeatCase` in which no token has been issued yet. -/
def repeatWorld : World Unit Nat := World.start () 0 (fun n => n + 1)

/-- A context that has been cancelled. -/
def cancelledContext : Context := ⟨true⟩

end usecase

/-! # The transport adapter

A shallow embedding of `cmd/api/auth/handler.go` (package `auth`).

* Of `events.APIGatewayProxyRequest` only `Body` is read, and of
  `events.APIGatewayProxyResponse` only `StatusCode`, `Body` and `Headers` are written; the
  records below hold those fields.
* `json.Unmarshal` and `json.Marshal` are library code. The handlers take them as the record
  `Codec`: a decoder for each request shape and an encoder for the response, each answering
  `none` where the library reports an error (the handlers only test that error against nil).
-/

namespace http

def StatusOK : Nat := 200

def StatusBadRequest : Nat := 400

def StatusUnauthorized : Nat := 401

def StatusInternalServerError : Nat := 500

end http

namespace events

structure APIGatewayProxyRequest where
  Body : String
  deriving DecidableEq, Repr

structure APIGatewayProxyResponse where
  StatusCode : Nat
  Body : String
  Headers : List (String × String)
  deriving DecidableEq, Repr

end events

namespace auth

open usecase

structure LoginRequest where
  Email : String
  Password : String
  deriving DecidableEq, Repr

/-- The anonymous struct `registerReq` of `AuthHandler.Register`. -/
structure RegisterRequest where
  Email : String
  Password : String
  Name : String
  deriving DecidableEq, Repr

structure LoginResponse where
  AccessToken : String
  RefreshToken : String
  TokenType : String
  deriving DecidableEq, Repr

/-- The JSON library as the handlers use it. -/
structure Codec where
  UnmarshalLogin : String → Option LoginRequest
  UnmarshalRegister : String → Option RegisterRequest
  Marshal : LoginResponse → Option String

structure AuthHandler (σ τ : Type) where
  authUseCase : AuthUseCase σ τ

def NewAuthHandler {σ τ : Type} (authUseCase : AuthUseCase σ τ) : AuthHandler σ τ :=
  ⟨authUseCase⟩

/-- The header map every response carries. -/
def jsonHeaders : List (String × String) := [("Content-Type", "application/json")]

variable {σ τ : Type}

/-- The method `AuthHandler.Login`. Its Go error result is nil on every path. A panic of the
use case passes through; reading `loginResult` through a nil pointer would be one too. -/
def AuthHandler.Login (json : Codec) (handler : AuthHandler σ τ) (ctx : Context)
    (request : events.APIGatewayProxyRequest) (w : World σ τ) :
    Completion (events.APIGatewayProxyResponse × Option GoError) × World σ τ :=
  if request.Body = "" then
    (.returned (⟨http.StatusBadRequest, "\x7berror: \"Request body is empty\"\x7d", jsonHeaders⟩,
       none), w)
  else
    match json.UnmarshalLogin request.Body with
    | none =>
      (.returned (⟨http.StatusBadRequest, "\x7berror: \"Invalid request body\"\x7d", jsonHeaders⟩,
         none), w)
    | some loginRequest =>
      let r := handler.authUseCase.Login ctx ⟨loginRequest.Email, loginRequest.Password⟩ w
      match r.1 with
      | .nilDereference => (.nilDereference, r.2)
      | .returned (loginResult, err) =>
        match err with
        | some _ =>
          (.returned (⟨http.StatusUnauthorized, "\x7berror: \"Invalid credentials\"\x7d",
             jsonHeaders⟩, none), r.2)
        | none =>
          match loginResult with
          | none => (.nilDereference, r.2)
          | some result =>
            match json.Marshal ⟨result.AccessToken, result.RefreshToken, result.TokenType⟩ with
            | none =>
              (.returned (⟨http.StatusInternalServerError,
                 "\x7berror: \"Failed to marshal response\"\x7d", jsonHeaders⟩, none), r.2)
            | some responseBody =>
              (.returned (⟨http.StatusOK, responseBody, jsonHeaders⟩, none), r.2)

/-- The method `AuthHandler.Register`. Its Go error result is nil on every path. -/
def AuthHandler.Register (json : Codec) (handler : AuthHandler σ τ) (ctx : Context)
    (request : events.APIGatewayProxyRequest) (w : World σ τ) :
    (events.APIGatewayProxyResponse × Option GoError) × World σ τ :=
  if request.Body = "" then
    ((⟨http.StatusBadRequest, "\x7berror: \"Request body is empty\"\x7d", jsonHeaders⟩, none), w)
  else
    match json.UnmarshalRegister request.Body with
    | none =>
      ((⟨http.StatusBadRequest, "\x7berror: \"Invalid request body\"\x7d", jsonHeaders⟩, none), w)
    | some registerReq =>
      let user : User := ⟨"", registerReq.Email, registerReq.Name, 0, 0⟩
      let r := handler.authUseCase.Register ctx user registerReq.Password w
      match r.1 with
      | some err =>
        ((⟨http.StatusInternalServerError, "\x7b\"error\": \"" ++ err.msg ++ "\"\x7d",
           jsonHeaders⟩, none), r.2)
      | none =>
        ((⟨http.StatusOK, "\x7b\"message\": \"User registered successfully\"\x7d",
           jsonHeaders⟩, none), r.2)

/-- Whether a status code is a client error (4xx). -/
def isClientError (status : Nat) : Bool := 400 ≤ status && status < 500

/-- Whether a status code is a server error (5xx). -/
def isServerError (status : Nat) : Bool := 500 ≤ status && status < 600

/-! ## Test doubles -/

/-- A login body for `a@x.com` with the password `"secret123"`. -/
def loginBody : String := "\x7b\"email\":\"a@x.com\",\"password\":\"secret123\"\x7d"

/-- A login body with an empty email. -/
def loginBodyNoEmail : String := "\x7b\"email\":\"\",\"password\":\"secret123\"\x7d"

/-- A registration body with the five-character password `"short"`. -/
def registerBodyShort : String :=
  "\x7b\"email\":\"a@x.com\",\"password\":\"short\",\"name\":\"A\"\x7d"

/-- A registration body for `a@x.com` with the password `"longenough"`. -/
def registerBody : String :=
  "\x7b\"email\":\"a@x.com\",\"password\":\"longenough\",\"name\":\"A\"\x7d"

/-- A codec for the bodies above: it decodes each of them as the JSON library does and
refuses every other body; it encodes a response field by field, without escaping. -/
def fixtureCodec : Codec where
  UnmarshalLogin := fun body =>
    if body = loginBody then some ⟨"a@x.com", "secret123"⟩
    else if body = loginBodyNoEmail then some ⟨"", "secret123"⟩
    else none
  UnmarshalRegister := fun body =>
    if body = registerBodyShort then some ⟨"a@x.com", "short", "A"⟩
    else if body = registerBody then some ⟨"a@x.com", "longenough", "A"⟩
    else none
  Marshal := fun r =>
    some ("\x7b\"access_token\":\"" ++ r.AccessToken ++ "\",\"refresh_token\":\""
      ++ r.RefreshToken ++ "\",\"token_type\":\"" ++ r.TokenType ++ "\"\x7d")

end auth

namespace usecase

variable {σ τ : Type}

/-! ## Validation lemmas -/

theorem validateLoginCredentials_of_nonempty (u : AuthUseCase σ τ)
    (credentials : LoginCredentials) (he : credentials.Email ≠ "")
    (hp : credentials.Password ≠ "") : u.validateLoginCredentials credentials = none := by
  simp [AuthUseCase.validateLoginCredentials, he, hp]

theorem validateLoginCredentials_of_empty (u : AuthUseCase σ τ)
    (credentials : LoginCredentials) (h : credentials.Email = "" ∨ credentials.Password = "") :
    u.validateLoginCredentials credentials = some InvalidInputLogin := by
  simp [AuthUseCase.validateLoginCredentials, h, InvalidInputLogin]

theorem validateUserData_of_valid (u : AuthUseCase σ τ) (user : User) (password : String)
    (he : user.Email ≠ "") (hn : user.Name ≠ "") (hp : 8 ≤ password.utf8ByteSize) :
    u.validateUserData user password = none := by
  simp [AuthUseCase.validateUserData, he, hn, Nat.not_lt.mpr hp]

/-- List form of `length_le_utf8ByteSize`. -/
theorem length_le_utf8ByteSize_go (cs : List Char) : cs.length ≤ String.utf8ByteSize.go cs := by
  induction cs with
  | nil => simp [String.utf8ByteSize.go]
  | cons c cs ih =>
    have hc : 0 < c.utf8Size := Char.utf8Size_pos c
    simp only [String.utf8ByteSize.go, List.length_cons]
    omega

/-- A string has at least as many bytes as characters, so a password of at least 8 characters
passes the byte-length check of `validateUserData`. -/
theorem length_le_utf8ByteSize (s : String) : s.length ≤ s.utf8ByteSize := by
  cases s with
  | mk cs => exact length_le_utf8ByteSize_go cs

/-! ## Login -/

/-- C1 (the code departs from the claim): once the store returns a user for the email and the
issuer issues a token, `Login` succeeds for every non-empty password. The password is handed to
`validadePassword`, which answers `true` without reading it, so no password is ever rejected
with `InvalidCredentials`. -/
theorem Login_succeeds_for_every_password (u : AuthUseCase σ τ) (ctx : Context)
    (email password : String) (w : World σ τ) (user : User) (s1 : σ) (tok : String) (t1 : τ)
    (he : email ≠ "") (hp : password ≠ "")
    (hl : u.userRepo.GetUserByEmail ctx email w.repo = ((some user, none), s1))
    (hg : u.tokenService.GenerateToken user.ID w.tokens = ((tok, none), t1)) :
    (u.Login ctx ⟨email, password⟩ w).1
      = .returned (some ⟨user, tok, "refresh_token_placeholder", "Bearer"⟩, none) := by
  have hv : u.validateLoginCredentials ⟨email, password⟩ = none :=
    validateLoginCredentials_of_nonempty u ⟨email, password⟩ he hp
  simp [AuthUseCase.Login, AuthUseCase.LoginWith, hv, World.callGetUserByEmail, hl,
    AuthUseCase.validadePassword, World.callGenerateToken, hg]

/-- Witness for C1: the store holds `alice`, and the password `"not-the-password"` logs in. -/
theorem Login_succeeds_for_every_password_witness :
    (memCase.Login background ⟨"a@x.com", "not-the-password"⟩ aliceWorld).1
      = .returned (some ⟨alice, "tok-1", "refresh_token_placeholder", "Bearer"⟩, none) :=
  Login_succeeds_for_every_password memCase background "a@x.com" "not-the-password" aliceWorld
    alice [alice] "tok-1" () (by decide) (by decide) (by decide) (by decide)

/-- C2 (the code departs from the claim): when the lookup returns a nil user with a nil error,
`Login` does not return `InvalidCredentials`. It passes the error check and the password check
and then reads `user.ID` through the nil pointer, which ends the run in a panic. The lookup is
the only collaborator call made. -/
theorem Login_nil_user_nil_error_panics (u : AuthUseCase σ τ) (ctx : Context)
    (credentials : LoginCredentials) (w : World σ τ) (s1 : σ)
    (he : credentials.Email ≠ "") (hp : credentials.Password ≠ "")
    (hl : u.userRepo.GetUserByEmail ctx credentials.Email w.repo = ((none, none), s1)) :
    u.Login ctx credentials w
      = (.nilDereference,
         { w with repo := s1, calls := w.calls ++ [Call.GetUserByEmail ctx credentials.Email] }) := by
  have hv := validateLoginCredentials_of_nonempty u credentials he hp
  simp [AuthUseCase.Login, AuthUseCase.LoginWith, hv, World.callGetUserByEmail, hl,
    AuthUseCase.validadePassword]

/-- Witness for C2: scenario A's credentials against a store that answers `(nil, nil)`. -/
theorem Login_nil_user_nil_error_panics_witness :
    nilCase.Login background ⟨"a@x.com", "secret123"⟩ stubWorld
      = (.nilDereference,
         { stubWorld with
           repo := (), calls := stubWorld.calls ++ [Call.GetUserByEmail background "a@x.com"] }) :=
  Login_nil_user_nil_error_panics nilCase background ⟨"a@x.com", "secret123"⟩ stubWorld ()
    (by decide) (by decide) rfl

/-- C3: when the email or the password is empty, `Login` returns no result and the error
`InvalidInput` ("email and password are required"), and leaves the world as it found it: the
call log is unchanged, so neither the store nor the issuer was called. -/
theorem Login_empty_field_invalid_input (u : AuthUseCase σ τ) (ctx : Context)
    (credentials : LoginCredentials) (w : World σ τ)
    (h : credentials.Email = "" ∨ credentials.Password = "") :
    u.Login ctx credentials w
      = (.returned (none, some (errors.New "email and password are required")), w) := by
  have hv := validateLoginCredentials_of_empty u credentials h
  simp [AuthUseCase.Login, AuthUseCase.LoginWith, hv, InvalidInputLogin]

/-- Witness for C3: scenario B, an empty email with the password `"secret123"`. -/
theorem Login_empty_field_invalid_input_witness :
    memCase.Login background ⟨"", "secret123"⟩ aliceWorld
      = (.returned (none, some (errors.New "email and password are required")), aliceWorld) :=
  Login_empty_field_invalid_input memCase background ⟨"", "secret123"⟩ aliceWorld (Or.inl rfl)

/-! ## Register -/

/-- C4 (the code departs from the claim): `validateUserData` measures the password in bytes. The
five-character password `"short"` is refused with the message "password must be at least 8
characters long" and no collaborator is called, but `"éééé"`, four characters in eight bytes, is
accepted: `Register` looks the email up, calls `CreateUser` and returns success. -/
theorem Register_four_character_password_accepted :
    "éééé".length = 4 ∧
    memCase.Register background ⟨"", "a@x.com", "A", 0, 0⟩ "short" emptyWorld
      = (some (errors.New "password must be at least 8 characters long"), emptyWorld) ∧
    (memCase.Register background ⟨"", "a@x.com", "A", 0, 0⟩ "éééé" emptyWorld).1 = none ∧
    (memCase.Register background ⟨"", "a@x.com", "A", 0, 0⟩ "éééé" emptyWorld).2.calls
      = [Call.GetUserByEmail background "a@x.com",
         Call.CreateUser background ⟨"", "a@x.com", "A", 1, 2⟩] := by
  refine ⟨by decide, ?_, by decide, by decide⟩
  rfl

/-- C5: for a valid registration input (non-empty email and name, a password of at least 8
bytes, which every password of at least 8 characters is), when the lookup of the email returns a
user, with or without an error beside it, `Register` returns `UserAlreadyExists` ("user already
exists"). The lookup is the only collaborator call it makes: `CreateUser` is not invoked and the
clock is not read. -/
theorem Register_existing_user_rejected (u : AuthUseCase σ τ) (ctx : Context) (user : User)
    (password : String) (w : World σ τ) (existing : User) (e : Option GoError) (s1 : σ)
    (he : user.Email ≠ "") (hn : user.Name ≠ "") (hp : 8 ≤ password.utf8ByteSize)
    (hl : u.userRepo.GetUserByEmail ctx user.Email w.repo = ((some existing, e), s1)) :
    u.Register ctx user password w
      = (some (errors.New "user already exists"),
         { w with repo := s1, calls := w.calls ++ [Call.GetUserByEmail ctx user.Email] }) := by
  have hv := validateUserData_of_valid u user password he hn hp
  simp [AuthUseCase.Register, hv, World.callGetUserByEmail, hl]

/-- Witness for C5: registering `a@x.com` again while the store holds `alice`. -/
theorem Register_existing_user_rejected_witness :
    memCase.Register background ⟨"", "a@x.com", "A", 0, 0⟩ "longenough" aliceWorld
      = (some (errors.New "user already exists"),
         { aliceWorld with
           repo := [alice],
           calls := aliceWorld.calls ++ [Call.GetUserByEmail background "a@x.com"] }) :=
  Register_existing_user_rejected memCase background ⟨"", "a@x.com", "A", 0, 0⟩ "longenough"
    aliceWorld alice none [alice] (by decide) (by decide) (by decide) (by decide)

/-- C6: for non-empty email and password, when the lookup returns the user `user` without an
error and `GenerateToken user.ID` returns the token `tok` without an error, `Login` returns no
error and a result holding `user`, `tok`, the token type `"Bearer"` and a non-empty refresh
token. The calls it makes are the lookup and then one `GenerateToken`, with `user.ID`. -/
theorem Login_success (u : AuthUseCase σ τ) (ctx : Context) (credentials : LoginCredentials)
    (w : World σ τ) (user : User) (s1 : σ) (tok : String) (t1 : τ)
    (he : credentials.Email ≠ "") (hp : credentials.Password ≠ "")
    (hl : u.userRepo.GetUserByEmail ctx credentials.Email w.repo = ((some user, none), s1))
    (hg : u.tokenService.GenerateToken user.ID w.tokens = ((tok, none), t1)) :
    ∃ result : LoginResult,
      u.Login ctx credentials w
        = (.returned (some result, none),
           { w with
             repo := s1, tokens := t1,
             calls := w.calls ++
               [Call.GetUserByEmail ctx credentials.Email, Call.GenerateToken user.ID] }) ∧
      result.User = user ∧ result.AccessToken = tok ∧ result.TokenType = "Bearer" ∧
      result.RefreshToken ≠ "" := by
  have hv := validateLoginCredentials_of_nonempty u credentials he hp
  refine ⟨⟨user, tok, "refresh_token_placeholder", "Bearer"⟩, ?_, rfl, rfl, rfl,
    (by decide : "refresh_token_placeholder" ≠ "")⟩
  simp [AuthUseCase.Login, AuthUseCase.LoginWith, hv, World.callGetUserByEmail, hl,
    AuthUseCase.validadePassword, World.callGenerateToken, hg]

/-- Witness for C6: scenario A, `a@x.com` with `"secret123"`, the issuer returning `"tok-1"`. -/
theorem Login_success_witness :
    ∃ result : LoginResult,
      memCase.Login background ⟨"a@x.com", "secret123"⟩ aliceWorld
        = (.returned (some result, none),
           { aliceWorld with
             repo := [alice], tokens := (),
             calls := aliceWorld.calls ++
               [Call.GetUserByEmail background "a@x.com", Call.GenerateToken alice.ID] }) ∧
      result.User = alice ∧ result.AccessToken = "tok-1" ∧ result.TokenType = "Bearer" ∧
      result.RefreshToken ≠ "" :=
  Login_success memCase background ⟨"a@x.com", "secret123"⟩ aliceWorld alice [alice] "tok-1" ()
    (by decide) (by decide) (by decide) (by decide)

/-- C7 (the code departs from the claim): `Register` reads the clock once for `CreatedAt` and a
second time for `UpdatedAt`. In scenario D, with a clock that reads `1` and then `2`, `Register`
succeeds and the user it passes to `CreateUser` has `CreatedAt = 1` and `UpdatedAt = 2`. -/
theorem Register_stamps_two_clock_readings :
    ∃ created : User,
      memCase.Register background ⟨"", "a@x.com", "A", 0, 0⟩ "longenough" emptyWorld
        = (none,
           { emptyWorld with
             repo := [created], ticks := 2,
             calls := [Call.GetUserByEmail background "a@x.com",
                       Call.CreateUser background created] }) ∧
      created.CreatedAt = 1 ∧ created.UpdatedAt = 2 ∧ created.CreatedAt ≠ created.UpdatedAt :=
  ⟨⟨"", "a@x.com", "A", 1, 2⟩, rfl, rfl, rfl, by decide⟩

/-- C8, counterexample: the store already holds `a@x.com`, the lookup (a stale read) finds
nobody, and `CreateUser` refuses the duplicate email. `Register` returns "failed to create
user" (`PersistenceFailed`), not "user already exists" (`UserAlreadyExists`). -/
theorem Register_duplicate_at_creation_counterexample :
    (staleCase.userRepo.CreateUser background ⟨"", "a@x.com", "A", 1, 2⟩ aliceWorld.repo).1
      = some (errors.New "duplicate email") ∧
    (staleCase.Register background ⟨"", "a@x.com", "A", 0, 0⟩ "longenough" aliceWorld).1
      = some PersistenceFailed ∧
    (staleCase.Register background ⟨"", "a@x.com", "A", 0, 0⟩ "longenough" aliceWorld).1
      ≠ some UserAlreadyExists := by
  refine ⟨by decide, by decide, by decide⟩

/-- C8, amended: for a valid registration input that passes the existence pre-check (the lookup
returns no user), if `CreateUser` returns an error, whatever that error is and so also when it
reports that the email already exists, `Register` returns `PersistenceFailed` ("failed to
create user"). -/
theorem Register_creation_failure_is_persistence_failed (u : AuthUseCase σ τ) (ctx : Context)
    (user : User) (password : String) (w : World σ τ) (e : Option GoError) (s1 s2 : σ)
    (cause : GoError)
    (he : user.Email ≠ "") (hn : user.Name ≠ "") (hp : 8 ≤ password.utf8ByteSize)
    (hl : u.userRepo.GetUserByEmail ctx user.Email w.repo = ((none, e), s1))
    (hc : u.userRepo.CreateUser ctx
            ⟨user.ID, user.Email, user.Name, w.now w.ticks, w.now (w.ticks + 1)⟩ s1
          = (some cause, s2)) :
    (u.Register ctx user password w).1 = some (errors.New "failed to create user") := by
  have hv := validateUserData_of_valid u user password he hn hp
  simp [AuthUseCase.Register, hv, World.callGetUserByEmail, hl, World.timeNow,
    World.callCreateUser, hc]

/-- Witness for C8 as amended: the duplicate email refused by `staleRepo` at creation. -/
theorem Register_creation_failure_is_persistence_failed_witness :
    (staleCase.Register background ⟨"", "a@x.com", "A", 0, 0⟩ "longenough" aliceWorld).1
      = some (errors.New "failed to create user") :=
  Register_creation_failure_is_persistence_failed staleCase background
    ⟨"", "a@x.com", "A", 0, 0⟩ "longenough" aliceWorld (some (errors.New "user not found"))
    [alice] [alice] (errors.New "duplicate email")
    (by decide) (by decide) (by decide) (by decide) (by decide)

/-! ## Login: issuance failure and enumeration resistance -/

/-- C9: for non-empty email and password, when the lookup returns a user without an error and
`GenerateToken` returns an error, `Login` returns no result and the error `TokenIssuanceFailed`
("failed to generate access token"), which differs from `InvalidCredentials` and from every
`InvalidInput` error. -/
theorem Login_issuance_failure (u : AuthUseCase σ τ) (ctx : Context)
    (credentials : LoginCredentials) (w : World σ τ) (user : User) (s1 : σ) (tok : String)
    (cause : GoError) (t1 : τ)
    (he : credentials.Email ≠ "") (hp : credentials.Password ≠ "")
    (hl : u.userRepo.GetUserByEmail ctx credentials.Email w.repo = ((some user, none), s1))
    (hg : u.tokenService.GenerateToken user.ID w.tokens = ((tok, some cause), t1)) :
    (u.Login ctx credentials w).1
      = .returned (none, some (errors.New "failed to generate access token")) ∧
    errors.New "failed to generate access token" = TokenIssuanceFailed ∧
    TokenIssuanceFailed ≠ InvalidCredentials ∧ TokenIssuanceFailed ≠ InvalidInputLogin ∧
    TokenIssuanceFailed ≠ InvalidInputUser ∧ TokenIssuanceFailed ≠ InvalidInputPassword := by
  have hv := validateLoginCredentials_of_nonempty u credentials he hp
  refine ⟨?_, rfl, by decide, by decide, by decide, by decide⟩
  simp [AuthUseCase.Login, AuthUseCase.LoginWith, hv, World.callGetUserByEmail, hl,
    AuthUseCase.validadePassword, World.callGenerateToken, hg]

/-- Witness for C9: `alice` logs in while the issuer fails. -/
theorem Login_issuance_failure_witness :
    (noTokenCase.Login background ⟨"a@x.com", "secret123"⟩ aliceWorld).1
      = .returned (none, some (errors.New "failed to generate access token")) ∧
    errors.New "failed to generate access token" = TokenIssuanceFailed ∧
    TokenIssuanceFailed ≠ InvalidCredentials ∧ TokenIssuanceFailed ≠ InvalidInputLogin ∧
    TokenIssuanceFailed ≠ InvalidInputUser ∧ TokenIssuanceFailed ≠ InvalidInputPassword :=
  Login_issuance_failure noTokenCase background ⟨"a@x.com", "secret123"⟩ aliceWorld alice
    [alice] "" (errors.New "signing key unavailable") ()
    (by decide) (by decide) (by decide) (by decide)

/-- C10: for non-empty email and password and two stores whose lookups fail with the errors
`e1` and `e2`, the two `Login` runs return the same thing: no result and the error
`InvalidCredentials` ("invalid credentials"), in which neither `e1` nor `e2` occurs. It is also
what the password-verification-failure branch returns: for a third store whose lookup succeeds
and a password check `verify` that rejects the password, the body of `Login` returns the same
error. -/
theorem Login_lookup_failures_indistinguishable {σ1 τ1 σ2 τ2 σ3 τ3 : Type}
    (u1 : AuthUseCase σ1 τ1) (u2 : AuthUseCase σ2 τ2) (u3 : AuthUseCase σ3 τ3)
    (ctx : Context) (credentials : LoginCredentials)
    (w1 : World σ1 τ1) (w2 : World σ2 τ2) (w3 : World σ3 τ3)
    (o1 o2 o3 : Option User) (e1 e2 : GoError) (s1 : σ1) (s2 : σ2) (s3 : σ3)
    (verify : String → Option User → Bool)
    (he : credentials.Email ≠ "") (hp : credentials.Password ≠ "")
    (h1 : u1.userRepo.GetUserByEmail ctx credentials.Email w1.repo = ((o1, some e1), s1))
    (h2 : u2.userRepo.GetUserByEmail ctx credentials.Email w2.repo = ((o2, some e2), s2))
    (h3 : u3.userRepo.GetUserByEmail ctx credentials.Email w3.repo = ((o3, none), s3))
    (hr : verify credentials.Password o3 = false) :
    (u1.Login ctx credentials w1).1 = (u2.Login ctx credentials w2).1 ∧
    (u1.Login ctx credentials w1).1 = .returned (none, some (errors.New "invalid credentials")) ∧
    (u3.LoginWith verify ctx credentials w3).1 = (u1.Login ctx credentials w1).1 := by
  have hv1 := validateLoginCredentials_of_nonempty u1 credentials he hp
  have hv2 := validateLoginCredentials_of_nonempty u2 credentials he hp
  have hv3 := validateLoginCredentials_of_nonempty u3 credentials he hp
  have r1 : (u1.Login ctx credentials w1).1
      = .returned (none, some (errors.New "invalid credentials")) := by
    simp [AuthUseCase.Login, AuthUseCase.LoginWith, hv1, World.callGetUserByEmail, h1]
  have r2 : (u2.Login ctx credentials w2).1
      = .returned (none, some (errors.New "invalid credentials")) := by
    simp [AuthUseCase.Login, AuthUseCase.LoginWith, hv2, World.callGetUserByEmail, h2]
  have r3 : (u3.LoginWith verify ctx credentials w3).1
      = .returned (none, some (errors.New "invalid credentials")) := by
    simp [AuthUseCase.LoginWith, hv3, World.callGetUserByEmail, h3, hr]
  exact ⟨r1.trans r2.symm, r1, r3.trans r1.symm⟩

/-- Witness for C10: `a@x.com` against an empty in-memory store ("user not found") and against
a store that is down ("connection refused"), beside a store that holds `alice` with a check
that rejects the password. -/
theorem Login_lookup_failures_indistinguishable_witness :
    (memCase.Login background ⟨"a@x.com", "secret123"⟩ emptyWorld).1
      = (downCase.Login background ⟨"a@x.com", "secret123"⟩ stubWorld).1 ∧
    (memCase.Login background ⟨"a@x.com", "secret123"⟩ emptyWorld).1
      = .returned (none, some (errors.New "invalid credentials")) ∧
    (memCase.LoginWith (fun _ _ => false) background ⟨"a@x.com", "secret123"⟩ aliceWorld).1
      = (memCase.Login background ⟨"a@x.com", "secret123"⟩ emptyWorld).1 :=
  Login_lookup_failures_indistinguishable memCase downCase memCase background
    ⟨"a@x.com", "secret123"⟩ emptyWorld stubWorld aliceWorld none none (some alice)
    (errors.New "user not found") (errors.New "connection refused") [] () [alice]
    (fun _ _ => false) (by decide) (by decide) (by decide) (by decide) (by decide) rfl

end usecase

namespace usecase

variable {σ τ : Type}

/-! ## Register: validation, creation and the errored lookup -/

/-- C11: when the email or the name is empty, whatever the password, `Register` returns the
error `InvalidInput` ("email and name are required") and leaves the world as it found it: the
call log is unchanged, so neither `GetUserByEmail` nor `CreateUser` was called. -/
theorem Register_empty_email_or_name_invalid_input (u : AuthUseCase σ τ) (ctx : Context)
    (user : User) (password : String) (w : World σ τ)
    (h : user.Email = "" ∨ user.Name = "") :
    u.Register ctx user password w = (some (errors.New "email and name are required"), w) := by
  simp [AuthUseCase.Register, AuthUseCase.validateUserData, h]

/-- Witness for C11: a registration with an empty name. -/
theorem Register_empty_email_or_name_invalid_input_witness :
    memCase.Register background ⟨"", "a@x.com", "", 0, 0⟩ "longenough" emptyWorld
      = (some (errors.New "email and name are required"), emptyWorld) :=
  Register_empty_email_or_name_invalid_input memCase background ⟨"", "a@x.com", "", 0, 0⟩
    "longenough" emptyWorld (Or.inr rfl)

/-- C12: for a valid registration input, when the lookup returns no user, `Register` reads the
clock twice and calls `CreateUser` once, after the lookup, with the stamped user. If
`CreateUser` returns no error `Register` returns nil; if it returns an error `Register` returns
`PersistenceFailed` ("failed to create user"). So `Register` succeeds exactly when `CreateUser`
does. -/
theorem Register_outcome_is_CreateUser_outcome (u : AuthUseCase σ τ) (ctx : Context)
    (user : User) (password : String) (w : World σ τ) (e created : Option GoError) (s1 s2 : σ)
    (he : user.Email ≠ "") (hn : user.Name ≠ "") (hp : 8 ≤ password.utf8ByteSize)
    (hl : u.userRepo.GetUserByEmail ctx user.Email w.repo = ((none, e), s1))
    (hc : u.userRepo.CreateUser ctx
            ⟨user.ID, user.Email, user.Name, w.now w.ticks, w.now (w.ticks + 1)⟩ s1
          = (created, s2)) :
    u.Register ctx user password w
      = (created.map (fun _ => errors.New "failed to create user"),
         { w with
           repo := s2, ticks := w.ticks + 1 + 1,
           calls := w.calls ++ [Call.GetUserByEmail ctx user.Email] ++
             [Call.CreateUser ctx
               ⟨user.ID, user.Email, user.Name, w.now w.ticks, w.now (w.ticks + 1)⟩] }) ∧
    ((u.Register ctx user password w).1 = none ↔ created = none) := by
  have hv := validateUserData_of_valid u user password he hn hp
  cases created with
  | none =>
    simp [AuthUseCase.Register, hv, World.callGetUserByEmail, hl, World.timeNow,
      World.callCreateUser, hc]
  | some cause =>
    simp [AuthUseCase.Register, hv, World.callGetUserByEmail, hl, World.timeNow,
      World.callCreateUser, hc]

/-- Witness for C12: scenario D, `a@x.com` registered in an empty store. -/
theorem Register_outcome_is_CreateUser_outcome_witness :
    memCase.Register background ⟨"", "a@x.com", "A", 0, 0⟩ "longenough" emptyWorld
      = ((none : Option GoError).map (fun _ => errors.New "failed to create user"),
         { emptyWorld with
           repo := [⟨"", "a@x.com", "A", 1, 2⟩], ticks := emptyWorld.ticks + 1 + 1,
           calls := emptyWorld.calls ++ [Call.GetUserByEmail background "a@x.com"] ++
             [Call.CreateUser background
               ⟨"", "a@x.com", "A", emptyWorld.now emptyWorld.ticks,
                emptyWorld.now (emptyWorld.ticks + 1)⟩] }) ∧
    ((memCase.Register background ⟨"", "a@x.com", "A", 0, 0⟩ "longenough" emptyWorld).1 = none
      ↔ (none : Option GoError) = none) :=
  Register_outcome_is_CreateUser_outcome memCase background ⟨"", "a@x.com", "A", 0, 0⟩
    "longenough" emptyWorld (some (errors.New "user not found")) none [] [⟨"", "a@x.com", "A", 1, 2⟩]
    (by decide) (by decide) (by decide) (by decide) (by decide)

/-- C13: for a valid registration input, let the lookup return the pointer `found` beside an
error or none. If `found` is nil, and so also when the lookup reported an error, `Register`
goes on to `CreateUser` and returns what `CreateUser` decides: nil, or `PersistenceFailed`.
`Register` returns `UserAlreadyExists` exactly when `found` is a user. -/
theorem Register_errored_lookup_does_not_block (u : AuthUseCase σ τ) (ctx : Context)
    (user : User) (password : String) (w : World σ τ) (found : Option User)
    (e created : Option GoError) (s1 s2 : σ)
    (he : user.Email ≠ "") (hn : user.Name ≠ "") (hp : 8 ≤ password.utf8ByteSize)
    (hl : u.userRepo.GetUserByEmail ctx user.Email w.repo = ((found, e), s1))
    (hc : u.userRepo.CreateUser ctx
            ⟨user.ID, user.Email, user.Name, w.now w.ticks, w.now (w.ticks + 1)⟩ s1
          = (created, s2)) :
    (found = none →
      (u.Register ctx user password w).1
        = created.map (fun _ => errors.New "failed to create user") ∧
      Call.CreateUser ctx ⟨user.ID, user.Email, user.Name, w.now w.ticks, w.now (w.ticks + 1)⟩
        ∈ (u.Register ctx user password w).2.calls) ∧
    ((u.Register ctx user password w).1 = some (errors.New "user already exists")
      ↔ found ≠ none) := by
  have hv := validateUserData_of_valid u user password he hn hp
  cases found with
  | some existing =>
    simp [AuthUseCase.Register, hv, World.callGetUserByEmail, hl]
  | none =>
    cases created with
    | none =>
      simp [AuthUseCase.Register, hv, World.callGetUserByEmail, hl, World.timeNow,
        World.callCreateUser, hc]
    | some cause =>
      simp [AuthUseCase.Register, hv, World.callGetUserByEmail, hl, World.timeNow,
        World.callCreateUser, hc]
      decide

/-- Witness for C13: the lookup of `staleRepo` reports "user not found" and the registration
of `a@x.com` in an empty store goes through. -/
theorem Register_errored_lookup_does_not_block_witness :
    ((none : Option User) = none →
      (staleCase.Register background ⟨"", "a@x.com", "A", 0, 0⟩ "longenough" emptyWorld).1
        = (none : Option GoError).map (fun _ => errors.New "failed to create user") ∧
      Call.CreateUser background
          ⟨"", "a@x.com", "A", emptyWorld.now emptyWorld.ticks,
           emptyWorld.now (emptyWorld.ticks + 1)⟩
        ∈ (staleCase.Register background ⟨"", "a@x.com", "A", 0, 0⟩ "longenough"
            emptyWorld).2.calls) ∧
    ((staleCase.Register background ⟨"", "a@x.com", "A", 0, 0⟩ "longenough" emptyWorld).1
        = some (errors.New "user already exists")
      ↔ (none : Option User) ≠ none) :=
  Register_errored_lookup_does_not_block staleCase background ⟨"", "a@x.com", "A", 0, 0⟩
    "longenough" emptyWorld none (some (errors.New "user not found")) none []
    [⟨"", "a@x.com", "A", 1, 2⟩] (by decide) (by decide) (by decide) (by decide) (by decide)

end usecase

namespace auth

open usecase

variable {σ τ : Type}

/-! ## The transport adapter: status mapping -/

/-- Whatever error the use case returns from `Login`, the handler answers 401 with the body
`{error: "Invalid credentials"}`. -/
theorem Login_response_of_core_error (json : Codec) (handler : AuthHandler σ τ) (ctx : Context)
    (request : events.APIGatewayProxyRequest) (w w1 : World σ τ) (loginRequest : LoginRequest)
    (result : Option LoginResult) (err : GoError)
    (hb : request.Body ≠ "")
    (hd : json.UnmarshalLogin request.Body = some loginRequest)
    (hcore : handler.authUseCase.Login ctx ⟨loginRequest.Email, loginRequest.Password⟩ w
      = (.returned (result, some err), w1)) :
    handler.Login json ctx request w
      = (.returned (⟨http.StatusUnauthorized, "\x7berror: \"Invalid credentials\"\x7d",
           jsonHeaders⟩, none), w1) := by
  simp [AuthHandler.Login, hb, hd, hcore]

/-- Whatever error the use case returns from `Register`, the handler answers 500 with the
error text in the body. -/
theorem Register_response_of_core_error (json : Codec) (handler : AuthHandler σ τ)
    (ctx : Context) (request : events.APIGatewayProxyRequest) (w w1 : World σ τ)
    (registerReq : RegisterRequest) (err : GoError)
    (hb : request.Body ≠ "")
    (hd : json.UnmarshalRegister request.Body = some registerReq)
    (hcore : handler.authUseCase.Register ctx ⟨"", registerReq.Email, registerReq.Name, 0, 0⟩
        registerReq.Password w
      = (some err, w1)) :
    handler.Register json ctx request w
      = ((⟨http.StatusInternalServerError, "\x7b\"error\": \"" ++ err.msg ++ "\"\x7d",
           jsonHeaders⟩, none), w1) := by
  simp [AuthHandler.Register, hb, hd, hcore]

/-- C14, counterexample: the registration body with the password `"short"` is well formed, the
use case refuses it with `InvalidInput`, and `AuthHandler.Register` answers 500, which is not a
client-error status. -/
theorem Register_handler_invalid_input_counterexample :
    fixtureCodec.UnmarshalRegister registerBodyShort = some ⟨"a@x.com", "short", "A"⟩ ∧
    (memCase.Register background ⟨"", "a@x.com", "A", 0, 0⟩ "short" emptyWorld).1
      = some InvalidInputPassword ∧
    ((NewAuthHandler memCase).Register fixtureCodec background ⟨registerBodyShort⟩
      emptyWorld).1.1.StatusCode = 500 ∧
    isClientError 500 = false := by
  refine ⟨by decide, by decide, by decide, by decide⟩

/-- C14, amended: for a well-formed non-empty login body whose email or password is empty (the
use case fails with `InvalidInput`), `AuthHandler.Login` answers 401, a client-error status, and
no collaborator is called. For a well-formed non-empty registration body whose email or name is
empty or whose password has fewer than 8 bytes (the use case fails with `InvalidInput`),
`AuthHandler.Register` answers 500, not a client-error status, with the error text in the
body, and no collaborator is called. -/
theorem handlers_on_invalid_input (json : Codec) (handler : AuthHandler σ τ) (ctx : Context)
    (loginReq registerReq : events.APIGatewayProxyRequest) (w : World σ τ)
    (login : LoginRequest) (register : RegisterRequest)
    (hlb : loginReq.Body ≠ "") (hld : json.UnmarshalLogin loginReq.Body = some login)
    (hle : login.Email = "" ∨ login.Password = "")
    (hrb : registerReq.Body ≠ "")
    (hrd : json.UnmarshalRegister registerReq.Body = some register)
    (hre : register.Email = "" ∨ register.Name = "" ∨ register.Password.utf8ByteSize < 8) :
    (handler.authUseCase.Login ctx ⟨login.Email, login.Password⟩ w
        = (.returned (none, some InvalidInputLogin), w) ∧
      handler.Login json ctx loginReq w
        = (.returned (⟨http.StatusUnauthorized, "\x7berror: \"Invalid credentials\"\x7d",
             jsonHeaders⟩, none), w) ∧
      isClientError http.StatusUnauthorized = true) ∧
    (∃ err : GoError,
      (err = InvalidInputUser ∨ err = InvalidInputPassword) ∧
      handler.authUseCase.Register ctx ⟨"", register.Email, register.Name, 0, 0⟩
          register.Password w
        = (some err, w) ∧
      handler.Register json ctx registerReq w
        = ((⟨http.StatusInternalServerError, "\x7b\"error\": \"" ++ err.msg ++ "\"\x7d",
             jsonHeaders⟩, none), w) ∧
      isClientError http.StatusInternalServerError = false) := by
  have hcl : handler.authUseCase.Login ctx ⟨login.Email, login.Password⟩ w
      = (.returned (none, some InvalidInputLogin), w) := by
    have hv := validateLoginCredentials_of_empty handler.authUseCase
      ⟨login.Email, login.Password⟩ hle
    simp [AuthUseCase.Login, AuthUseCase.LoginWith, hv]
  refine ⟨⟨hcl, Login_response_of_core_error json handler ctx loginReq w w login none _
    hlb hld hcl, by decide⟩, ?_⟩
  by_cases hen : register.Email = "" ∨ register.Name = ""
  · have hcr : handler.authUseCase.Register ctx ⟨"", register.Email, register.Name, 0, 0⟩
        register.Password w = (some InvalidInputUser, w) := by
      simp [AuthUseCase.Register, AuthUseCase.validateUserData, hen, InvalidInputUser]
    exact ⟨InvalidInputUser, Or.inl rfl, hcr,
      Register_response_of_core_error json handler ctx registerReq w w register _ hrb hrd hcr,
      by decide⟩
  · have hshort : register.Password.utf8ByteSize < 8 := by
      rcases hre with h | h | h
      · exact absurd (Or.inl h) hen
      · exact absurd (Or.inr h) hen
      · exact h
    have hcr : handler.authUseCase.Register ctx ⟨"", register.Email, register.Name, 0, 0⟩
        register.Password w = (some InvalidInputPassword, w) := by
      simp [AuthUseCase.Register, AuthUseCase.validateUserData, hen, hshort,
        InvalidInputPassword]
    exact ⟨InvalidInputPassword, Or.inr rfl, hcr,
      Register_response_of_core_error json handler ctx registerReq w w register _ hrb hrd hcr,
      by decide⟩

/-- Witness for C14 as amended: a login body with an empty email and a registration body with
the password `"short"`. -/
theorem handlers_on_invalid_input_witness :
    ((NewAuthHandler memCase).authUseCase.Login background ⟨"", "secret123"⟩ emptyWorld
        = (.returned (none, some InvalidInputLogin), emptyWorld) ∧
      (NewAuthHandler memCase).Login fixtureCodec background ⟨loginBodyNoEmail⟩ emptyWorld
        = (.returned (⟨http.StatusUnauthorized, "\x7berror: \"Invalid credentials\"\x7d",
             jsonHeaders⟩, none), emptyWorld) ∧
      isClientError http.StatusUnauthorized = true) ∧
    (∃ err : GoError,
      (err = InvalidInputUser ∨ err = InvalidInputPassword) ∧
      (NewAuthHandler memCase).authUseCase.Register background ⟨"", "a@x.com", "A", 0, 0⟩
          "short" emptyWorld
        = (some err, emptyWorld) ∧
      (NewAuthHandler memCase).Register fixtureCodec background ⟨registerBodyShort⟩ emptyWorld
        = ((⟨http.StatusInternalServerError, "\x7b\"error\": \"" ++ err.msg ++ "\"\x7d",
             jsonHeaders⟩, none), emptyWorld) ∧
      isClientError http.StatusInternalServerError = false) :=
  handlers_on_invalid_input fixtureCodec (NewAuthHandler memCase) background
    ⟨loginBodyNoEmail⟩ ⟨registerBodyShort⟩ emptyWorld ⟨"", "secret123"⟩ ⟨"a@x.com", "short", "A"⟩
    (by decide) (by decide) (by decide) (by decide) (by decide) (by decide)

/-- C15, counterexample: `alice` logs in with a well-formed body while the issuer fails. The
use case returns `TokenIssuanceFailed`, and `AuthHandler.Login` answers 401, which is neither a
server-error status nor 409. -/
theorem Login_handler_issuance_failure_counterexample :
    fixtureCodec.UnmarshalLogin loginBody = some ⟨"a@x.com", "secret123"⟩ ∧
    (noTokenCase.Login background ⟨"a@x.com", "secret123"⟩ aliceWorld).1
      = .returned (none, some TokenIssuanceFailed) ∧
    ((NewAuthHandler noTokenCase).Login fixtureCodec background ⟨loginBody⟩ aliceWorld).1
      = .returned (⟨401, "\x7berror: \"Invalid credentials\"\x7d", jsonHeaders⟩, none) ∧
    isServerError 401 = false ∧ 401 ≠ 409 := by
  refine ⟨by decide, by decide, by decide, by decide, by decide⟩

/-- C15, amended: for a well-formed non-empty login body, whatever error the use case fails
with, `TokenIssuanceFailed` as well as `InvalidCredentials`, `AuthHandler.Login` answers 401
with one and the same body. For a well-formed non-empty registration body, whatever error the
use case fails with, `UserAlreadyExists` and `PersistenceFailed` included,
`AuthHandler.Register` answers 500, a server-error status, with the error text in the body. -/
theorem handlers_on_core_failure (json : Codec) (handler : AuthHandler σ τ) (ctx : Context)
    (loginReq registerReq : events.APIGatewayProxyRequest) (w w1 w2 : World σ τ)
    (login : LoginRequest) (register : RegisterRequest)
    (result : Option LoginResult) (loginErr registerErr : GoError)
    (hlb : loginReq.Body ≠ "") (hld : json.UnmarshalLogin loginReq.Body = some login)
    (hlc : handler.authUseCase.Login ctx ⟨login.Email, login.Password⟩ w
      = (.returned (result, some loginErr), w1))
    (hrb : registerReq.Body ≠ "")
    (hrd : json.UnmarshalRegister registerReq.Body = some register)
    (hrc : handler.authUseCase.Register ctx ⟨"", register.Email, register.Name, 0, 0⟩
        register.Password w
      = (some registerErr, w2)) :
    handler.Login json ctx loginReq w
      = (.returned (⟨http.StatusUnauthorized, "\x7berror: \"Invalid credentials\"\x7d",
           jsonHeaders⟩, none), w1) ∧
    handler.Register json ctx registerReq w
      = ((⟨http.StatusInternalServerError, "\x7b\"error\": \"" ++ registerErr.msg ++ "\"\x7d",
           jsonHeaders⟩, none), w2) ∧
    isServerError http.StatusInternalServerError = true ∧
    isServerError http.StatusUnauthorized = false ∧ http.StatusUnauthorized ≠ 409 := by
  refine ⟨Login_response_of_core_error json handler ctx loginReq w w1 login result loginErr
      hlb hld hlc,
    Register_response_of_core_error json handler ctx registerReq w w2 register registerErr
      hrb hrd hrc, by decide, by decide, by decide⟩

/-- Witness for C15 as amended: the store holds `alice` and the issuer fails. The login of
`alice` fails with `TokenIssuanceFailed`, a second registration of `a@x.com` with
`UserAlreadyExists`. -/
theorem handlers_on_core_failure_witness :
    (NewAuthHandler noTokenCase).Login fixtureCodec background ⟨loginBody⟩ aliceWorld
      = (.returned (⟨http.StatusUnauthorized, "\x7berror: \"Invalid credentials\"\x7d",
           jsonHeaders⟩, none),
         { aliceWorld with
           calls := [Call.GetUserByEmail background "a@x.com", Call.GenerateToken "u-1"] }) ∧
    (NewAuthHandler noTokenCase).Register fixtureCodec background ⟨registerBody⟩ aliceWorld
      = ((⟨http.StatusInternalServerError,
           "\x7b\"error\": \"" ++ UserAlreadyExists.msg ++ "\"\x7d", jsonHeaders⟩, none),
         { aliceWorld with calls := [Call.GetUserByEmail background "a@x.com"] }) ∧
    isServerError http.StatusInternalServerError = true ∧
    isServerError http.StatusUnauthorized = false ∧ http.StatusUnauthorized ≠ 409 :=
  handlers_on_core_failure fixtureCodec (NewAuthHandler noTokenCase) background ⟨loginBody⟩
    ⟨registerBody⟩ aliceWorld _ _ ⟨"a@x.com", "secret123"⟩ ⟨"a@x.com", "longenough", "A"⟩ none
    TokenIssuanceFailed UserAlreadyExists (by decide) (by decide) rfl (by decide) (by decide) rfl

/-- C16: for a request with an empty body, `AuthHandler.Login` and `AuthHandler.Register` both
answer 400, a client-error status, with the body `{error: "Request body is empty"}`, for every
codec and every use case behind the handler, and leave the world as they found it: the call
log is unchanged, so no store or issuer call was made. -/
theorem handlers_on_empty_body (json : Codec) (handler : AuthHandler σ τ) (ctx : Context)
    (request : events.APIGatewayProxyRequest) (w : World σ τ) (h : request.Body = "") :
    handler.Login json ctx request w
      = (.returned (⟨http.StatusBadRequest, "\x7berror: \"Request body is empty\"\x7d",
           jsonHeaders⟩, none), w) ∧
    handler.Register json ctx request w
      = ((⟨http.StatusBadRequest, "\x7berror: \"Request body is empty\"\x7d",
           jsonHeaders⟩, none), w) ∧
    http.StatusBadRequest = 400 ∧ isClientError http.StatusBadRequest = true := by
  refine ⟨?_, ?_, rfl, by decide⟩
  · simp [AuthHandler.Login, h]
  · simp [AuthHandler.Register, h]

/-- Witness for C16: the request with the body `""`, the store holding `alice`. -/
theorem handlers_on_empty_body_witness :
    (NewAuthHandler memCase).Login fixtureCodec background ⟨""⟩ aliceWorld
      = (.returned (⟨http.StatusBadRequest, "\x7berror: \"Request body is empty\"\x7d",
           jsonHeaders⟩, none), aliceWorld) ∧
    (NewAuthHandler memCase).Register fixtureCodec background ⟨""⟩ aliceWorld
      = ((⟨http.StatusBadRequest, "\x7berror: \"Request body is empty\"\x7d",
           jsonHeaders⟩, none), aliceWorld) ∧
    http.StatusBadRequest = 400 ∧ isClientError http.StatusBadRequest = true :=
  handlers_on_empty_body fixtureCodec (NewAuthHandler memCase) background ⟨""⟩ aliceWorld rfl

end auth

namespace usecase

variable {σ τ : Type}

/-! ## Login: repeatability -/

/-- C17: let the store answer the lookup of the email by a function of the email alone (the
same answer in every store state) and let the issuer fail or not by a function of the user id
alone (its token may change from call to call). Then two `Login` calls with the same
credentials, in any two worlds and so also the second in the world the first one left, end
alike: if one succeeds so does the other, with the same `User`, `TokenType` and
`RefreshToken`; if one fails with an error the other fails with that error; if one panics so
does the other. This holds for every credentials value, valid or not. -/
theorem Login_repeatable (u : AuthUseCase σ τ) (ctx : Context) (credentials : LoginCredentials)
    (w w2 : World σ τ)
    (hrepo : ∀ s s2 : σ, (u.userRepo.GetUserByEmail ctx credentials.Email s).1
      = (u.userRepo.GetUserByEmail ctx credentials.Email s2).1)
    (htok : ∀ (id : String) (t t2 : τ), (u.tokenService.GenerateToken id t).1.2
      = (u.tokenService.GenerateToken id t2).1.2) :
    (∀ first : LoginResult, (u.Login ctx credentials w).1 = .returned (some first, none) →
      ∃ second : LoginResult, (u.Login ctx credentials w2).1 = .returned (some second, none) ∧
        second.User = first.User ∧ second.TokenType = first.TokenType ∧
        second.RefreshToken = first.RefreshToken) ∧
    (∀ err : GoError, (u.Login ctx credentials w).1 = .returned (none, some err) →
      (u.Login ctx credentials w2).1 = .returned (none, some err)) ∧
    ((u.Login ctx credentials w).1 = .nilDereference →
      (u.Login ctx credentials w2).1 = .nilDereference) := by
  have hr := hrepo w.repo w2.repo
  rcases hA : u.userRepo.GetUserByEmail ctx credentials.Email w.repo with ⟨⟨o, e⟩, s1⟩
  rcases hB : u.userRepo.GetUserByEmail ctx credentials.Email w2.repo with ⟨⟨o2, e2⟩, s2⟩
  rw [hA, hB] at hr
  simp only [Prod.mk.injEq] at hr
  obtain ⟨ho, he⟩ := hr
  subst ho he
  cases hv : u.validateLoginCredentials credentials with
  | some verr =>
    simp [AuthUseCase.Login, AuthUseCase.LoginWith, hv]
  | none =>
    cases e with
    | some lerr =>
      simp [AuthUseCase.Login, AuthUseCase.LoginWith, hv, World.callGetUserByEmail, hA, hB]
    | none =>
      cases o with
      | none =>
        simp [AuthUseCase.Login, AuthUseCase.LoginWith, hv, World.callGetUserByEmail, hA, hB,
          AuthUseCase.validadePassword]
      | some user =>
        have hg := htok user.ID w.tokens w2.tokens
        rcases hG : u.tokenService.GenerateToken user.ID w.tokens with ⟨⟨tok, g⟩, t1⟩
        rcases hG2 : u.tokenService.GenerateToken user.ID w2.tokens with ⟨⟨tok2, g2⟩, t2⟩
        rw [hG, hG2] at hg
        simp only at hg
        subst hg
        cases g with
        | some gerr =>
          simp [AuthUseCase.Login, AuthUseCase.LoginWith, hv, World.callGetUserByEmail, hA,
            hB, AuthUseCase.validadePassword, World.callGenerateToken, hG, hG2]
        | none =>
          simp [AuthUseCase.Login, AuthUseCase.LoginWith, hv, World.callGetUserByEmail, hA,
            hB, AuthUseCase.validadePassword, World.callGenerateToken, hG, hG2]

/-- Witness for C17: two logins of `alice` in a row, the second in the world the first one
left, with an issuer whose tokens differ from call to call. -/
theorem Login_repeatable_witness :
    (∀ first : LoginResult,
      (repeatCase.Login background ⟨"a@x.com", "secret123"⟩ repeatWorld).1
        = .returned (some first, none) →
      ∃ second : LoginResult,
        (repeatCase.Login background ⟨"a@x.com", "secret123"⟩
          (repeatCase.Login background ⟨"a@x.com", "secret123"⟩ repeatWorld).2).1
          = .returned (some second, none) ∧
        second.User = first.User ∧ second.TokenType = first.TokenType ∧
        second.RefreshToken = first.RefreshToken) ∧
    (∀ err : GoError,
      (repeatCase.Login background ⟨"a@x.com", "secret123"⟩ repeatWorld).1
        = .returned (none, some err) →
      (repeatCase.Login background ⟨"a@x.com", "secret123"⟩
        (repeatCase.Login background ⟨"a@x.com", "secret123"⟩ repeatWorld).2).1
        = .returned (none, some err)) ∧
    ((repeatCase.Login background ⟨"a@x.com", "secret123"⟩ repeatWorld).1 = .nilDereference →
      (repeatCase.Login background ⟨"a@x.com", "secret123"⟩
        (repeatCase.Login background ⟨"a@x.com", "secret123"⟩ repeatWorld).2).1
        = .nilDereference) :=
  Login_repeatable repeatCase background ⟨"a@x.com", "secret123"⟩ repeatWorld
    (repeatCase.Login background ⟨"a@x.com", "secret123"⟩ repeatWorld).2
    (fun _ _ => rfl) (fun _ _ _ => rfl)

/-! ## The invocation context -/

/-- C18, counterexample: with a context that is already cancelled and collaborators that ignore
it, `Login` does not abort: it looks `alice` up, has a token issued and succeeds; `Register`
does not abort either: it looks the email up, calls `CreateUser` and succeeds. The store calls
carry the cancelled context; the `GenerateToken` call carries the user id only. -/
theorem cancelled_context_counterexample :
    cancelledContext.cancelled = true ∧
    memCase.Login cancelledContext ⟨"a@x.com", "secret123"⟩ aliceWorld
      = (.returned (some ⟨alice, "tok-1", "refresh_token_placeholder", "Bearer"⟩, none),
         { aliceWorld with
           calls := [Call.GetUserByEmail cancelledContext "a@x.com",
                     Call.GenerateToken "u-1"] }) ∧
    memCase.Register cancelledContext ⟨"", "a@x.com", "A", 0, 0⟩ "longenough" emptyWorld
      = (none,
         { emptyWorld with
           repo := [⟨"", "a@x.com", "A", 1, 2⟩], ticks := 2,
           calls := [Call.GetUserByEmail cancelledContext "a@x.com",
                     Call.CreateUser cancelledContext ⟨"", "a@x.com", "A", 1, 2⟩] }) :=
  ⟨rfl, rfl, rfl⟩

/-- C18, amended: `Login` and `Register` do not inspect the context. For every context `ctx`,
cancelled or not, and every store and issuer: on input that passes validation the first
collaborator call, the lookup, is made, with `ctx` as given; the only calls that can follow are
`GenerateToken` with a user id and no context (in `Login`) and `CreateUser` with `ctx` as given
(in `Register`); on input that fails validation the world is left unchanged. When the store
answers under `ctx` as it does under the context `live` (it ignores the context), `Login` and
`Register` return under `ctx` what they return under `live`. -/
theorem context_not_inspected (u : AuthUseCase σ τ) (ctx live : Context)
    (credentials : LoginCredentials) (user : User) (password : String) (w : World σ τ) :
    (u.validateLoginCredentials credentials = none →
      ∃ rest : List Call,
        (u.Login ctx credentials w).2.calls
          = w.calls ++ Call.GetUserByEmail ctx credentials.Email :: rest ∧
        ∀ call ∈ rest, ∃ id : String, call = Call.GenerateToken id) ∧
    (u.validateLoginCredentials credentials ≠ none → (u.Login ctx credentials w).2 = w) ∧
    (u.validateUserData user password = none →
      ∃ rest : List Call,
        (u.Register ctx user password w).2.calls
          = w.calls ++ Call.GetUserByEmail ctx user.Email :: rest ∧
        ∀ call ∈ rest, ∃ usr : User, call = Call.CreateUser ctx usr) ∧
    (u.validateUserData user password ≠ none → (u.Register ctx user password w).2 = w) ∧
    ((∀ (email : String) (s : σ),
        u.userRepo.GetUserByEmail ctx email s = u.userRepo.GetUserByEmail live email s) →
      (u.Login ctx credentials w).1 = (u.Login live credentials w).1) ∧
    ((∀ (email : String) (s : σ),
        u.userRepo.GetUserByEmail ctx email s = u.userRepo.GetUserByEmail live email s) →
      (∀ (usr : User) (s : σ),
        u.userRepo.CreateUser ctx usr s = u.userRepo.CreateUser live usr s) →
      (u.Register ctx user password w).1 = (u.Register live user password w).1) := by
  refine ⟨?_, ?_, ?_, ?_, ?_, ?_⟩
  · intro hv
    rcases hA : u.userRepo.GetUserByEmail ctx credentials.Email w.repo with ⟨⟨o, e⟩, s1⟩
    cases e with
    | some lerr =>
      exact ⟨[], by
        simp [AuthUseCase.Login, AuthUseCase.LoginWith, hv, World.callGetUserByEmail, hA]⟩
    | none =>
      cases o with
      | none =>
        exact ⟨[], by
          simp [AuthUseCase.Login, AuthUseCase.LoginWith, hv, World.callGetUserByEmail, hA,
            AuthUseCase.validadePassword]⟩
      | some found =>
        refine ⟨[Call.GenerateToken found.ID], ?_, ?_⟩
        · rcases hG : u.tokenService.GenerateToken found.ID w.tokens with ⟨⟨tok, g⟩, t1⟩
          cases g with
          | some gerr =>
            simp [AuthUseCase.Login, AuthUseCase.LoginWith, hv, World.callGetUserByEmail, hA,
              AuthUseCase.validadePassword, World.callGenerateToken, hG]
          | none =>
            simp [AuthUseCase.Login, AuthUseCase.LoginWith, hv, World.callGetUserByEmail, hA,
              AuthUseCase.validadePassword, World.callGenerateToken, hG]
        · intro call hc
          exact ⟨found.ID, by simpa using hc⟩
  · intro hv
    cases hv2 : u.validateLoginCredentials credentials with
    | none => exact absurd hv2 hv
    | some verr => simp [AuthUseCase.Login, AuthUseCase.LoginWith, hv2]
  · intro hv
    rcases hA : u.userRepo.GetUserByEmail ctx user.Email w.repo with ⟨⟨o, e⟩, s1⟩
    cases o with
    | some found =>
      exact ⟨[], by simp [AuthUseCase.Register, hv, World.callGetUserByEmail, hA]⟩
    | none =>
      refine ⟨[Call.CreateUser ctx
        ⟨user.ID, user.Email, user.Name, w.now w.ticks, w.now (w.ticks + 1)⟩], ?_, ?_⟩
      · rcases hC : u.userRepo.CreateUser ctx
          ⟨user.ID, user.Email, user.Name, w.now w.ticks, w.now (w.ticks + 1)⟩ s1
          with ⟨created, s2⟩
        cases created with
        | some cerr =>
          simp [AuthUseCase.Register, hv, World.callGetUserByEmail, hA, World.timeNow,
            World.callCreateUser, hC]
        | none =>
          simp [AuthUseCase.Register, hv, World.callGetUserByEmail, hA, World.timeNow,
            World.callCreateUser, hC]
      · intro call hc
        exact ⟨_, by simpa using hc⟩
  · intro hv
    cases hv2 : u.validateUserData user password with
    | none => exact absurd hv2 hv
    | some verr => simp [AuthUseCase.Register, hv2]
  · intro hget
    cases hv : u.validateLoginCredentials credentials with
    | some verr => simp [AuthUseCase.Login, AuthUseCase.LoginWith, hv]
    | none =>
      have hg := hget credentials.Email w.repo
      rcases hA : u.userRepo.GetUserByEmail live credentials.Email w.repo with ⟨⟨o, e⟩, s1⟩
      rw [hA] at hg
      cases e with
      | some lerr =>
        simp [AuthUseCase.Login, AuthUseCase.LoginWith, hv, World.callGetUserByEmail, hA, hg]
      | none =>
        cases o with
        | none =>
          simp [AuthUseCase.Login, AuthUseCase.LoginWith, hv, World.callGetUserByEmail, hA,
            hg, AuthUseCase.validadePassword]
        | some found =>
          rcases hG : u.tokenService.GenerateToken found.ID w.tokens with ⟨⟨tok, g⟩, t1⟩
          cases g with
          | some gerr =>
            simp [AuthUseCase.Login, AuthUseCase.LoginWith, hv, World.callGetUserByEmail, hA,
              hg, AuthUseCase.validadePassword, World.callGenerateToken, hG]
          | none =>
            simp [AuthUseCase.Login, AuthUseCase.LoginWith, hv, World.callGetUserByEmail, hA,
              hg, AuthUseCase.validadePassword, World.callGenerateToken, hG]
  · intro hget hcreate
    cases hv : u.validateUserData user password with
    | some verr => simp [AuthUseCase.Register, hv]
    | none =>
      have hg := hget user.Email w.repo
      rcases hA : u.userRepo.GetUserByEmail live user.Email w.repo with ⟨⟨o, e⟩, s1⟩
      rw [hA] at hg
      cases o with
      | some found => simp [AuthUseCase.Register, hv, World.callGetUserByEmail, hA, hg]
      | none =>
        have hc := hcreate
          ⟨user.ID, user.Email, user.Name, w.now w.ticks, w.now (w.ticks + 1)⟩ s1
        rcases hC : u.userRepo.CreateUser live
          ⟨user.ID, user.Email, user.Name, w.now w.ticks, w.now (w.ticks + 1)⟩ s1
          with ⟨created, s2⟩
        rw [hC] at hc
        cases created with
        | some cerr =>
          simp [AuthUseCase.Register, hv, World.callGetUserByEmail, hA, hg, World.timeNow,
            World.callCreateUser, hc, hC]
        | none =>
          simp [AuthUseCase.Register, hv, World.callGetUserByEmail, hA, hg, World.timeNow,
            World.callCreateUser, hc, hC]

/-- Witness for C18 as amended, under a cancelled context and with the in-memory store, which
ignores the context: `alice` logs in and `b@x.com` is registered, each starting with the
lookup and returning what it returns under a live context; a login with an empty email and a
registration with an empty name leave the world unchanged. -/
theorem context_not_inspected_witness :
    (∃ rest : List Call,
      (memCase.Login cancelledContext ⟨"a@x.com", "secret123"⟩ aliceWorld).2.calls
        = aliceWorld.calls ++ Call.GetUserByEmail cancelledContext "a@x.com" :: rest ∧
      ∀ call ∈ rest, ∃ id : String, call = Call.GenerateToken id) ∧
    (∃ rest : List Call,
      (memCase.Register cancelledContext ⟨"", "b@x.com", "B", 0, 0⟩ "longenough"
          aliceWorld).2.calls
        = aliceWorld.calls ++ Call.GetUserByEmail cancelledContext "b@x.com" :: rest ∧
      ∀ call ∈ rest, ∃ usr : User, call = Call.CreateUser cancelledContext usr) ∧
    (memCase.Login cancelledContext ⟨"a@x.com", "secret123"⟩ aliceWorld).1
      = (memCase.Login background ⟨"a@x.com", "secret123"⟩ aliceWorld).1 ∧
    (memCase.Register cancelledContext ⟨"", "b@x.com", "B", 0, 0⟩ "longenough" aliceWorld).1
      = (memCase.Register background ⟨"", "b@x.com", "B", 0, 0⟩ "longenough" aliceWorld).1 ∧
    (memCase.Login cancelledContext ⟨"", "secret123"⟩ aliceWorld).2 = aliceWorld ∧
    (memCase.Register cancelledContext ⟨"", "b@x.com", "", 0, 0⟩ "longenough" aliceWorld).2
      = aliceWorld :=
  have valid := context_not_inspected memCase cancelledContext background
    ⟨"a@x.com", "secret123"⟩ ⟨"", "b@x.com", "B", 0, 0⟩ "longenough" aliceWorld
  have invalid := context_not_inspected memCase cancelledContext background
    ⟨"", "secret123"⟩ ⟨"", "b@x.com", "", 0, 0⟩ "longenough" aliceWorld
  ⟨valid.1 (by decide), valid.2.2.1 (by decide), valid.2.2.2.2.1 (fun _ _ => rfl),
    valid.2.2.2.2.2 (fun _ _ => rfl) (fun _ _ => rfl), invalid.2.1 (by decide),
    invalid.2.2.2.1 (by decide)⟩

/-! ## Register: what reaches the store -/

/-- C19: the collaborator calls `Register` makes are none (validation failed), or the lookup
alone, made with the email of the user given to `Register`, or that lookup followed by one
`CreateUser` whose user has the `ID`, `Email` and `Name` of the user given to `Register`. The
password reaches no call: two passwords that both pass validation give the same result and the
same final world, call log included. -/
theorem Register_frame (u : AuthUseCase σ τ) (ctx : Context) (user : User)
    (password : String) (w : World σ τ) :
    ((u.Register ctx user password w).2.calls = w.calls ∨
      (u.Register ctx user password w).2.calls
        = w.calls ++ [Call.GetUserByEmail ctx user.Email] ∨
      ∃ created : User,
        (u.Register ctx user password w).2.calls
          = w.calls ++ [Call.GetUserByEmail ctx user.Email, Call.CreateUser ctx created] ∧
        created.ID = user.ID ∧ created.Email = user.Email ∧ created.Name = user.Name) ∧
    (∀ other : String,
      u.validateUserData user password = none → u.validateUserData user other = none →
      u.Register ctx user other w = u.Register ctx user password w) := by
  constructor
  · cases hv : u.validateUserData user password with
    | some verr => exact Or.inl (by simp [AuthUseCase.Register, hv])
    | none =>
      rcases hA : u.userRepo.GetUserByEmail ctx user.Email w.repo with ⟨⟨o, e⟩, s1⟩
      cases o with
      | some found =>
        exact Or.inr (Or.inl (by simp [AuthUseCase.Register, hv, World.callGetUserByEmail, hA]))
      | none =>
        refine Or.inr (Or.inr
          ⟨⟨user.ID, user.Email, user.Name, w.now w.ticks, w.now (w.ticks + 1)⟩, ?_,
            rfl, rfl, rfl⟩)
        rcases hC : u.userRepo.CreateUser ctx
          ⟨user.ID, user.Email, user.Name, w.now w.ticks, w.now (w.ticks + 1)⟩ s1
          with ⟨created, s2⟩
        cases created with
        | some cerr =>
          simp [AuthUseCase.Register, hv, World.callGetUserByEmail, hA, World.timeNow,
            World.callCreateUser, hC]
        | none =>
          simp [AuthUseCase.Register, hv, World.callGetUserByEmail, hA, World.timeNow,
            World.callCreateUser, hC]
  · intro other hv hv2
    simp [AuthUseCase.Register, hv, hv2]

end usecase
